import Mathlib

/-!
Shallow embedding of the single-file Flask application `app.py` of the
substack-feed-proxy repository.

The application registers one route, `GET /proxy`.  The handler builds a
fixed outbound GET request (fixed URL, header User-Agent: Mozilla/5.0, no
timeout argument), performs it once with `requests.get`, and then:
  - on success, forces `r.encoding = "utf-8"` and returns `r.text` (that is,
    the raw body bytes decoded as UTF-8 with invalid sequences replaced by
    U+FFFD, which is what the requests library does for `r.text` once an
    encoding is set) together with the upstream status code and the fixed
    content type `application/xml; charset=utf-8`;
  - on any exception, returns a Flask `Response` with body
    `Error fetching feed: ` followed by the printed exception and status 500,
    with no explicit content type, so the Flask default
    `text/html; charset=utf-8` applies.

If the module is run as the main module, the server listens on host
`0.0.0.0`, port 8080; no environment variable is consulted.
-/

/-- One outbound HTTP request as the handler constructs it: the method, the
target URL, the header list passed to `requests.get`, and the value of the
timeout parameter of `requests.get` (the call in the source passes none). -/
structure OutboundRequest where
  method : String
  url : String
  headers : List (String × String)
  timeout : Option Nat
deriving DecidableEq, Repr

/-- An outbound (to the caller) HTTP response, as built by the Flask
`Response` constructor: status code, body as a list of Unicode code points,
and the optionally supplied content type. -/
structure HttpResponse where
  status : Nat
  body : List Nat
  contentType : Option String
deriving DecidableEq, Repr

/-- The observable outcome of the `requests.get` call: either a response
(status code, raw body bytes, response headers), or a raised exception,
identified by its printed description `str(e)`. -/
inductive Upstream where
  | ok (status : Nat) (body : List Nat) (headers : List (String × String))
  | exn (msg : String)
deriving DecidableEq, Repr

/-- The fixed upstream URL from line 8 of `app.py`. -/
def feedUrl : String := "https://natesnewsletter.substack.com/feed"

/-- The fixed header map from line 9 of `app.py`. -/
def requestHeaders : List (String × String) := [("User-Agent", "Mozilla/5.0")]

/-- The one outbound request issued by the handler (line 11 of `app.py`):
`requests.get(url, headers=headers)` with no timeout argument. -/
def outboundRequest : OutboundRequest :=
  ⟨"GET", feedUrl, requestHeaders, none⟩

/-- Lower bound of the first continuation byte after lead byte `b`
(UTF-8 shortest-form rules: 0xE0 needs 0xA0.., 0xF0 needs 0x90..). -/
def cont1Lo (b : Nat) : Nat :=
  if b = 0xE0 then 0xA0 else if b = 0xF0 then 0x90 else 0x80

/-- Upper bound of the first continuation byte after lead byte `b`
(0xED stops at 0x9F to exclude surrogates, 0xF4 at 0x8F to stay below
U+110000). -/
def cont1Hi (b : Nat) : Nat :=
  if b = 0xED then 0x9F else if b = 0xF4 then 0x8F else 0xBF

/-- UTF-8 decoding with replacement, as CPython performs for
`str(data, "utf-8", errors="replace")`: well-formed sequences decode to
their code point, and each maximal ill-formed subpart is replaced by one
U+FFFD (0xFFFD).  This models the `r.text` read on line 14 of `app.py`
after `r.encoding = "utf-8"` on line 12. -/
def utf8DecodeReplace : List Nat → List Nat
  | [] => []
  | b :: rest =>
    if b < 0x80 then
      b :: utf8DecodeReplace rest
    else if 0xC2 ≤ b ∧ b ≤ 0xDF then
      match rest with
      | [] => [0xFFFD]
      | b1 :: r1 =>
        if 0x80 ≤ b1 ∧ b1 ≤ 0xBF then
          ((b - 0xC0) * 0x40 + (b1 - 0x80)) :: utf8DecodeReplace r1
        else
          0xFFFD :: utf8DecodeReplace (b1 :: r1)
    else if 0xE0 ≤ b ∧ b ≤ 0xEF then
      match rest with
      | [] => [0xFFFD]
      | b1 :: r1 =>
        if cont1Lo b ≤ b1 ∧ b1 ≤ cont1Hi b then
          match r1 with
          | [] => [0xFFFD]
          | b2 :: r2 =>
            if 0x80 ≤ b2 ∧ b2 ≤ 0xBF then
              ((b - 0xE0) * 0x1000 + (b1 - 0x80) * 0x40 + (b2 - 0x80)) ::
                utf8DecodeReplace r2
            else
              0xFFFD :: utf8DecodeReplace (b2 :: r2)
        else
          0xFFFD :: utf8DecodeReplace (b1 :: r1)
    else if 0xF0 ≤ b ∧ b ≤ 0xF4 then
      match rest with
      | [] => [0xFFFD]
      | b1 :: r1 =>
        if cont1Lo b ≤ b1 ∧ b1 ≤ cont1Hi b then
          match r1 with
          | [] => [0xFFFD]
          | b2 :: r2 =>
            if 0x80 ≤ b2 ∧ b2 ≤ 0xBF then
              match r2 with
              | [] => [0xFFFD]
              | b3 :: r3 =>
                if 0x80 ≤ b3 ∧ b3 ≤ 0xBF then
                  ((b - 0xF0) * 0x40000 + (b1 - 0x80) * 0x1000 +
                      (b2 - 0x80) * 0x40 + (b3 - 0x80)) ::
                    utf8DecodeReplace r3
                else
                  0xFFFD :: utf8DecodeReplace (b3 :: r3)
            else
              0xFFFD :: utf8DecodeReplace (b2 :: r2)
        else
          0xFFFD :: utf8DecodeReplace (b1 :: r1)
    else
      0xFFFD :: utf8DecodeReplace rest

/-- The code points of a Lean string, used to compare string-valued bodies
with decoded byte bodies. -/
def strCodes (s : String) : List Nat := s.data.map Char.toNat

/-- The Python f-string `f"Error fetching feed: {e}"` from line 19 of
`app.py`, where `msg` stands for `str(e)`. -/
def errorMessage (msg : String) : String := "Error fetching feed: " ++ msg

/-- The response built on lines 13 to 17 of `app.py` when `requests.get`
returns: body `r.text`, status `r.status_code`, explicit content type
`application/xml; charset=utf-8`. -/
def successResponse (st : Nat) (body : List Nat) : HttpResponse :=
  ⟨st, utf8DecodeReplace body, some "application/xml; charset=utf-8"⟩

/-- The response built on line 19 of `app.py` when `requests.get` raises:
the error text as body, status 500, and no explicit content type. -/
def errorResponse (msg : String) : HttpResponse :=
  ⟨500, strCodes (errorMessage msg), none⟩

/-- The default mimetype of a Flask `Response` constructed without an
explicit content type: `text/html`, with the charset Flask appends for
text mimetypes. -/
def flaskDefaultContentType : String := "text/html; charset=utf-8"

/-- The content type the response actually carries on the wire: the
explicitly supplied one, or the Flask default. -/
def effectiveContentType (r : HttpResponse) : String :=
  r.contentType.getD flaskDefaultContentType

/-- The whole handler `proxy` (lines 6 to 19 of `app.py`) run against an
upstream oracle that maps the issued request to its outcome.  The first
component is the trace of outbound requests the handler performs: the
handler calls `requests.get` exactly once, in the try block, and neither
branch performs any further call, so the trace is a singleton whatever the
outcome. -/
def proxyRun (oracle : OutboundRequest → Upstream) :
    List OutboundRequest × HttpResponse :=
  let req := outboundRequest
  (⟨[req],
    match oracle req with
    | Upstream.ok st body _ => successResponse st body
    | Upstream.exn msg => errorResponse msg⟩)

/-- The response the handler returns for a given upstream outcome. -/
def proxy (u : Upstream) : HttpResponse :=
  (proxyRun (fun _ => u)).2

/-- Host and port passed to `app.run`. -/
structure ServerConfig where
  host : String
  port : Nat
deriving DecidableEq, Repr

/-- The server startup on line 22 of `app.py`: `app.run` with host
`0.0.0.0` and port 8080.  The process environment is a parameter only to
record that the source never reads it: the result does not depend on it. -/
def serverStart (_env : List (String × String)) : ServerConfig :=
  ⟨"0.0.0.0", 8080⟩

/-- Bytes that cannot occur anywhere in well-formed UTF-8: 0xC0 and 0xC1
(overlong two-byte leads) and everything at or above 0xF5. -/
def neverValidUtf8Byte (b : Nat) : Prop :=
  b = 0xC0 ∨ b = 0xC1 ∨ 0xF5 ≤ b

instance (b : Nat) : Decidable (neverValidUtf8Byte b) := by
  unfold neverValidUtf8Byte
  infer_instance

example : utf8DecodeReplace [0x41, 0xFF, 0x42] = [0x41, 0xFFFD, 0x42] := by decide
example : utf8DecodeReplace [0xC3, 0xA9] = [0xE9] := by decide
example : utf8DecodeReplace [0xE0, 0xA0] = [0xFFFD] := by decide
example : utf8DecodeReplace [0xED, 0xA0, 0x80] = [0xFFFD, 0xFFFD, 0xFFFD] := by decide
example : utf8DecodeReplace [0xF0, 0x9F, 0x98, 0x80] = [0x1F600] := by decide

set_option maxRecDepth 4000
set_option maxHeartbeats 800000

/-- Lower bound of every first-continuation range. -/
lemma cont1Lo_ge (b : Nat) : 0x80 ≤ cont1Lo b := by
  unfold cont1Lo
  split_ifs <;> omega

/-- Upper bound of every first-continuation range. -/
lemma cont1Hi_le (b : Nat) : cont1Hi b ≤ 0xBF := by
  unfold cont1Hi
  split_ifs <;> omega

/-- Unfolding: an ASCII byte decodes to itself. -/
lemma utf8_ascii (b : Nat) (rest : List Nat) (h : b < 0x80) :
    utf8DecodeReplace (b :: rest) = b :: utf8DecodeReplace rest := by
  rw [utf8DecodeReplace.eq_def]
  dsimp only
  rw [if_pos h]

/-- Unfolding: a two-byte lead with no byte after it. -/
lemma utf8_two_nil (b : Nat) (h : 0xC2 ≤ b ∧ b ≤ 0xDF) :
    utf8DecodeReplace [b] = [0xFFFD] := by
  rw [utf8DecodeReplace.eq_def]
  dsimp only
  rw [if_neg (show ¬b < 0x80 by omega),
    if_pos h]

/-- Unfolding: a well-formed two-byte sequence. -/
lemma utf8_two_ok (b c : Nat) (r : List Nat) (h : 0xC2 ≤ b ∧ b ≤ 0xDF)
    (hc : 0x80 ≤ c ∧ c ≤ 0xBF) :
    utf8DecodeReplace (b :: c :: r) =
      ((b - 0xC0) * 0x40 + (c - 0x80)) :: utf8DecodeReplace r := by
  rw [utf8DecodeReplace.eq_def]
  dsimp only
  rw [if_neg (show ¬b < 0x80 by omega),
    if_pos h,
    if_pos hc]

/-- Unfolding: a two-byte lead with an invalid continuation. -/
lemma utf8_two_bad (b c : Nat) (r : List Nat) (h : 0xC2 ≤ b ∧ b ≤ 0xDF)
    (hc : ¬(0x80 ≤ c ∧ c ≤ 0xBF)) :
    utf8DecodeReplace (b :: c :: r) = 0xFFFD :: utf8DecodeReplace (c :: r) := by
  rw [utf8DecodeReplace.eq_def]
  dsimp only
  rw [if_neg (show ¬b < 0x80 by omega),
    if_pos h,
    if_neg hc]

/-- Unfolding: a three-byte lead with no byte after it. -/
lemma utf8_three_nil (b : Nat) (h : 0xE0 ≤ b ∧ b ≤ 0xEF) :
    utf8DecodeReplace [b] = [0xFFFD] := by
  rw [utf8DecodeReplace.eq_def]
  dsimp only
  rw [if_neg (show ¬b < 0x80 by omega),
    if_neg (show ¬(0xC2 ≤ b ∧ b ≤ 0xDF) by omega),
    if_pos h]

/-- Unfolding: a three-byte lead with one valid continuation at end of input. -/
lemma utf8_three_one (b c : Nat) (h : 0xE0 ≤ b ∧ b ≤ 0xEF)
    (hc : cont1Lo b ≤ c ∧ c ≤ cont1Hi b) :
    utf8DecodeReplace [b, c] = [0xFFFD] := by
  rw [utf8DecodeReplace.eq_def]
  dsimp only
  rw [if_neg (show ¬b < 0x80 by omega),
    if_neg (show ¬(0xC2 ≤ b ∧ b ≤ 0xDF) by omega),
    if_pos h,
    if_pos hc]

/-- Unfolding: a well-formed three-byte sequence. -/
lemma utf8_three_ok (b c d : Nat) (r : List Nat) (h : 0xE0 ≤ b ∧ b ≤ 0xEF)
    (hc : cont1Lo b ≤ c ∧ c ≤ cont1Hi b) (hd : 0x80 ≤ d ∧ d ≤ 0xBF) :
    utf8DecodeReplace (b :: c :: d :: r) =
      ((b - 0xE0) * 0x1000 + (c - 0x80) * 0x40 + (d - 0x80)) ::
        utf8DecodeReplace r := by
  rw [utf8DecodeReplace.eq_def]
  dsimp only
  rw [if_neg (show ¬b < 0x80 by omega),
    if_neg (show ¬(0xC2 ≤ b ∧ b ≤ 0xDF) by omega),
    if_pos h,
    if_pos hc,
    if_pos hd]

/-- Unfolding: a three-byte lead with invalid second continuation. -/
lemma utf8_three_bad2 (b c d : Nat) (r : List Nat) (h : 0xE0 ≤ b ∧ b ≤ 0xEF)
    (hc : cont1Lo b ≤ c ∧ c ≤ cont1Hi b) (hd : ¬(0x80 ≤ d ∧ d ≤ 0xBF)) :
    utf8DecodeReplace (b :: c :: d :: r) =
      0xFFFD :: utf8DecodeReplace (d :: r) := by
  rw [utf8DecodeReplace.eq_def]
  dsimp only
  rw [if_neg (show ¬b < 0x80 by omega),
    if_neg (show ¬(0xC2 ≤ b ∧ b ≤ 0xDF) by omega),
    if_pos h,
    if_pos hc,
    if_neg hd]

/-- Unfolding: a three-byte lead with invalid first continuation. -/
lemma utf8_three_bad1 (b c : Nat) (r : List Nat) (h : 0xE0 ≤ b ∧ b ≤ 0xEF)
    (hc : ¬(cont1Lo b ≤ c ∧ c ≤ cont1Hi b)) :
    utf8DecodeReplace (b :: c :: r) = 0xFFFD :: utf8DecodeReplace (c :: r) := by
  rw [utf8DecodeReplace.eq_def]
  dsimp only
  rw [if_neg (show ¬b < 0x80 by omega),
    if_neg (show ¬(0xC2 ≤ b ∧ b ≤ 0xDF) by omega),
    if_pos h,
    if_neg hc]

/-- Unfolding: a four-byte lead with no byte after it. -/
lemma utf8_four_nil (b : Nat) (h : 0xF0 ≤ b ∧ b ≤ 0xF4) :
    utf8DecodeReplace [b] = [0xFFFD] := by
  rw [utf8DecodeReplace.eq_def]
  dsimp only
  rw [if_neg (show ¬b < 0x80 by omega),
    if_neg (show ¬(0xC2 ≤ b ∧ b ≤ 0xDF) by omega),
    if_neg (show ¬(0xE0 ≤ b ∧ b ≤ 0xEF) by omega),
    if_pos h]

/-- Unfolding: a four-byte lead with one valid continuation at end of input. -/
lemma utf8_four_one (b c : Nat) (h : 0xF0 ≤ b ∧ b ≤ 0xF4)
    (hc : cont1Lo b ≤ c ∧ c ≤ cont1Hi b) :
    utf8DecodeReplace [b, c] = [0xFFFD] := by
  rw [utf8DecodeReplace.eq_def]
  dsimp only
  rw [if_neg (show ¬b < 0x80 by omega),
    if_neg (show ¬(0xC2 ≤ b ∧ b ≤ 0xDF) by omega),
    if_neg (show ¬(0xE0 ≤ b ∧ b ≤ 0xEF) by omega),
    if_pos h,
    if_pos hc]

/-- Unfolding: a four-byte lead with two valid continuations at end of input. -/
lemma utf8_four_two (b c d : Nat) (h : 0xF0 ≤ b ∧ b ≤ 0xF4)
    (hc : cont1Lo b ≤ c ∧ c ≤ cont1Hi b) (hd : 0x80 ≤ d ∧ d ≤ 0xBF) :
    utf8DecodeReplace [b, c, d] = [0xFFFD] := by
  rw [utf8DecodeReplace.eq_def]
  dsimp only
  rw [if_neg (show ¬b < 0x80 by omega),
    if_neg (show ¬(0xC2 ≤ b ∧ b ≤ 0xDF) by omega),
    if_neg (show ¬(0xE0 ≤ b ∧ b ≤ 0xEF) by omega),
    if_pos h,
    if_pos hc,
    if_pos hd]

/-- Unfolding: a well-formed four-byte sequence. -/
lemma utf8_four_ok (b c d e : Nat) (r : List Nat) (h : 0xF0 ≤ b ∧ b ≤ 0xF4)
    (hc : cont1Lo b ≤ c ∧ c ≤ cont1Hi b) (hd : 0x80 ≤ d ∧ d ≤ 0xBF)
    (he : 0x80 ≤ e ∧ e ≤ 0xBF) :
    utf8DecodeReplace (b :: c :: d :: e :: r) =
      ((b - 0xF0) * 0x40000 + (c - 0x80) * 0x1000 + (d - 0x80) * 0x40 +
          (e - 0x80)) :: utf8DecodeReplace r := by
  rw [utf8DecodeReplace.eq_def]
  dsimp only
  rw [if_neg (show ¬b < 0x80 by omega),
    if_neg (show ¬(0xC2 ≤ b ∧ b ≤ 0xDF) by omega),
    if_neg (show ¬(0xE0 ≤ b ∧ b ≤ 0xEF) by omega),
    if_pos h,
    if_pos hc,
    if_pos hd,
    if_pos he]

/-- Unfolding: a four-byte lead with invalid third continuation. -/
lemma utf8_four_bad3 (b c d e : Nat) (r : List Nat) (h : 0xF0 ≤ b ∧ b ≤ 0xF4)
    (hc : cont1Lo b ≤ c ∧ c ≤ cont1Hi b) (hd : 0x80 ≤ d ∧ d ≤ 0xBF)
    (he : ¬(0x80 ≤ e ∧ e ≤ 0xBF)) :
    utf8DecodeReplace (b :: c :: d :: e :: r) =
      0xFFFD :: utf8DecodeReplace (e :: r) := by
  rw [utf8DecodeReplace.eq_def]
  dsimp only
  rw [if_neg (show ¬b < 0x80 by omega),
    if_neg (show ¬(0xC2 ≤ b ∧ b ≤ 0xDF) by omega),
    if_neg (show ¬(0xE0 ≤ b ∧ b ≤ 0xEF) by omega),
    if_pos h,
    if_pos hc,
    if_pos hd,
    if_neg he]

/-- Unfolding: a four-byte lead with invalid second continuation. -/
lemma utf8_four_bad2 (b c d : Nat) (r : List Nat) (h : 0xF0 ≤ b ∧ b ≤ 0xF4)
    (hc : cont1Lo b ≤ c ∧ c ≤ cont1Hi b) (hd : ¬(0x80 ≤ d ∧ d ≤ 0xBF)) :
    utf8DecodeReplace (b :: c :: d :: r) =
      0xFFFD :: utf8DecodeReplace (d :: r) := by
  rw [utf8DecodeReplace.eq_def]
  dsimp only
  rw [if_neg (show ¬b < 0x80 by omega),
    if_neg (show ¬(0xC2 ≤ b ∧ b ≤ 0xDF) by omega),
    if_neg (show ¬(0xE0 ≤ b ∧ b ≤ 0xEF) by omega),
    if_pos h,
    if_pos hc,
    if_neg hd]

/-- Unfolding: a four-byte lead with invalid first continuation. -/
lemma utf8_four_bad1 (b c : Nat) (r : List Nat) (h : 0xF0 ≤ b ∧ b ≤ 0xF4)
    (hc : ¬(cont1Lo b ≤ c ∧ c ≤ cont1Hi b)) :
    utf8DecodeReplace (b :: c :: r) = 0xFFFD :: utf8DecodeReplace (c :: r) := by
  rw [utf8DecodeReplace.eq_def]
  dsimp only
  rw [if_neg (show ¬b < 0x80 by omega),
    if_neg (show ¬(0xC2 ≤ b ∧ b ≤ 0xDF) by omega),
    if_neg (show ¬(0xE0 ≤ b ∧ b ≤ 0xEF) by omega),
    if_pos h,
    if_neg hc]

/-- Unfolding: a byte that can lead no sequence. -/
lemma utf8_invalid (b : Nat) (r : List Nat) (h0 : ¬b < 0x80)
    (h1 : ¬(0xC2 ≤ b ∧ b ≤ 0xDF)) (h2 : ¬(0xE0 ≤ b ∧ b ≤ 0xEF))
    (h3 : ¬(0xF0 ≤ b ∧ b ≤ 0xF4)) :
    utf8DecodeReplace (b :: r) = 0xFFFD :: utf8DecodeReplace r := by
  rw [utf8DecodeReplace.eq_def]
  dsimp only
  rw [if_neg h0,
    if_neg h1,
    if_neg h2,
    if_neg h3]

/-- A byte that is invalid everywhere in UTF-8 forces at least one
replacement character into the decoded output, wherever it stands. -/
lemma utf8_bad_byte_replaced (bb : Nat) (hbad : neverValidUtf8Byte bb) :
    ∀ l : List Nat, bb ∈ l → 0xFFFD ∈ utf8DecodeReplace l := by
  have hb : bb = 0xC0 ∨ bb = 0xC1 ∨ 0xF5 ≤ bb := hbad
  intro l
  induction l using utf8DecodeReplace.induct with
  | case1 =>
    intro hmem
    exact absurd hmem (List.not_mem_nil bb)
  | case2 b r h ih =>
    intro hmem
    rw [utf8_ascii b r h]
    simp only [List.mem_cons] at hmem
    rcases hmem with rfl | hm
    · omega
    · exact List.mem_cons_of_mem _ (ih hm)
  | case3 b h0 h1 =>
    intro hmem
    rw [utf8_two_nil b h1]
    simp
  | case4 b h0 h1 c r hc ih =>
    intro hmem
    rw [utf8_two_ok b c r h1 hc]
    simp only [List.mem_cons] at hmem
    rcases hmem with rfl | rfl | hm
    · omega
    · omega
    · exact List.mem_cons_of_mem _ (ih hm)
  | case5 b h0 h1 c r hc ih =>
    intro hmem
    rw [utf8_two_bad b c r h1 hc]
    exact List.mem_cons_self _ _
  | case6 b h0 h1 h2 =>
    intro hmem
    rw [utf8_three_nil b h2]
    simp
  | case7 b h0 h1 h2 c hc =>
    intro hmem
    rw [utf8_three_one b c h2 hc]
    simp
  | case8 b h0 h1 h2 c hc d r hd ih =>
    intro hmem
    rw [utf8_three_ok b c d r h2 hc hd]
    have hlo := cont1Lo_ge b
    have hhi := cont1Hi_le b
    simp only [List.mem_cons] at hmem
    rcases hmem with rfl | rfl | rfl | hm
    · omega
    · omega
    · omega
    · exact List.mem_cons_of_mem _ (ih hm)
  | case9 b h0 h1 h2 c hc d r hd ih =>
    intro hmem
    rw [utf8_three_bad2 b c d r h2 hc hd]
    exact List.mem_cons_self _ _
  | case10 b h0 h1 h2 c r hc ih =>
    intro hmem
    rw [utf8_three_bad1 b c r h2 hc]
    exact List.mem_cons_self _ _
  | case11 b h0 h1 h2 h3 =>
    intro hmem
    rw [utf8_four_nil b h3]
    simp
  | case12 b h0 h1 h2 h3 c hc =>
    intro hmem
    rw [utf8_four_one b c h3 hc]
    simp
  | case13 b h0 h1 h2 h3 c hc d hd =>
    intro hmem
    rw [utf8_four_two b c d h3 hc hd]
    simp
  | case14 b h0 h1 h2 h3 c hc d hd e r he ih =>
    intro hmem
    rw [utf8_four_ok b c d e r h3 hc hd he]
    have hlo := cont1Lo_ge b
    have hhi := cont1Hi_le b
    simp only [List.mem_cons] at hmem
    rcases hmem with rfl | rfl | rfl | rfl | hm
    · omega
    · omega
    · omega
    · omega
    · exact List.mem_cons_of_mem _ (ih hm)
  | case15 b h0 h1 h2 h3 c hc d hd e r he ih =>
    intro hmem
    rw [utf8_four_bad3 b c d e r h3 hc hd he]
    exact List.mem_cons_self _ _
  | case16 b h0 h1 h2 h3 c hc d r hd ih =>
    intro hmem
    rw [utf8_four_bad2 b c d r h3 hc hd]
    exact List.mem_cons_self _ _
  | case17 b h0 h1 h2 h3 c r hc ih =>
    intro hmem
    rw [utf8_four_bad1 b c r h3 hc]
    exact List.mem_cons_self _ _
  | case18 b r h0 h1 h2 h3 ih =>
    intro hmem
    rw [utf8_invalid b r h0 h1 h2 h3]
    exact List.mem_cons_self _ _

/-- Splitting `strCodes` over string append. -/
lemma strCodes_append (s t : String) :
    strCodes (s ++ t) = strCodes s ++ strCodes t := by
  simp [strCodes, String.data_append]

/-- Claim C1: for every inbound GET /proxy request for which the outbound
call completes with any HTTP status, the outbound status code equals the
upstream status code exactly. -/
theorem claim_C1_status_passthrough (st : Nat) (body : List Nat)
    (hdrs : List (String × String)) :
    (proxy (Upstream.ok st body hdrs)).status = st := rfl

/-- Claim C2: whenever the outbound call raises, the response has status
500 and a non-empty body of the form `Error fetching feed: <description>`
that contains the description of the underlying error. -/
theorem claim_C2_error_branch (msg : String) :
    (proxy (Upstream.exn msg)).status = 500 ∧
    (proxy (Upstream.exn msg)).body = strCodes ("Error fetching feed: " ++ msg) ∧
    (proxy (Upstream.exn msg)).body ≠ [] ∧
    strCodes msg <:+ (proxy (Upstream.exn msg)).body := by
  refine ⟨rfl, rfl, ?_, ?_⟩
  · show strCodes (errorMessage msg) ≠ []
    rw [errorMessage, strCodes_append]
    simp [strCodes]
  · show strCodes msg <:+ strCodes (errorMessage msg)
    exact ⟨strCodes "Error fetching feed: ", (strCodes_append _ _).symm⟩

/-- Claim C3: on every successful outbound call the response carries the
fixed content type `application/xml; charset=utf-8`, whatever content type
the upstream declared in its headers. -/
theorem claim_C3_fixed_content_type (st : Nat) (body : List Nat)
    (hdrs : List (String × String)) :
    (proxy (Upstream.ok st body hdrs)).contentType =
      some "application/xml; charset=utf-8" ∧
    effectiveContentType (proxy (Upstream.ok st body hdrs)) =
      "application/xml; charset=utf-8" := ⟨rfl, rfl⟩

/-- Claim C4: decoding the upstream body never fails: the decode applied to
the body is the total function `utf8DecodeReplace`, the response still
carries the upstream status code whatever the body holds, and any byte of
the body that is invalid everywhere in UTF-8 is replaced, leaving a
U+FFFD substitution marker in the outbound body. -/
theorem claim_C4_lenient_decode (st : Nat) (body : List Nat)
    (hdrs : List (String × String)) :
    (proxy (Upstream.ok st body hdrs)).status = st ∧
    (proxy (Upstream.ok st body hdrs)).body = utf8DecodeReplace body ∧
    ∀ bb ∈ body, neverValidUtf8Byte bb →
      0xFFFD ∈ (proxy (Upstream.ok st body hdrs)).body := by
  refine ⟨rfl, rfl, ?_⟩
  intro bb hmem hbad
  exact utf8_bad_byte_replaced bb hbad body hmem

/-- Witness for claim C4 at a concrete invalid body: byte 0xFF inside the
body is replaced by U+FFFD while the status 200 is preserved. -/
theorem claim_C4_witness :
    (proxy (Upstream.ok 200 [0x3C, 0xFF, 0x3E]
      [("Content-Type", "text/plain")])).status = 200 ∧
    0xFFFD ∈ (proxy (Upstream.ok 200 [0x3C, 0xFF, 0x3E]
      [("Content-Type", "text/plain")])).body :=
  ⟨(claim_C4_lenient_decode 200 [0x3C, 0xFF, 0x3E]
      [("Content-Type", "text/plain")]).1,
    (claim_C4_lenient_decode 200 [0x3C, 0xFF, 0x3E]
      [("Content-Type", "text/plain")]).2.2 0xFF (by decide) (by decide)⟩

/-- Claim C5: the handler is total on every upstream outcome, success or
raised exception: each branch returns a response, and every failure of the
outbound call becomes a 500 response instead of propagating. -/
theorem claim_C5_no_propagation (st : Nat) (body : List Nat)
    (hdrs : List (String × String)) (msg : String) :
    proxy (Upstream.ok st body hdrs) = successResponse st body ∧
    proxy (Upstream.exn msg) = errorResponse msg ∧
    (proxy (Upstream.exn msg)).status = 500 := ⟨rfl, rfl, rfl⟩

/-- Claim C6: two requests whose upstream outcomes have the same status
code and the same body bytes (headers may even differ) produce structurally
identical outbound responses. -/
theorem claim_C6_deterministic (st : Nat) (body : List Nat)
    (h1 h2 : List (String × String)) :
    proxy (Upstream.ok st body h1) = proxy (Upstream.ok st body h2) ∧
    (proxy (Upstream.ok st body h1)).status =
      (proxy (Upstream.ok st body h2)).status ∧
    (proxy (Upstream.ok st body h1)).body =
      (proxy (Upstream.ok st body h2)).body := ⟨rfl, rfl, rfl⟩

/-- Claim C7: against any upstream oracle the handler issues exactly one
outbound request, a GET to the fixed feed URL with the single header
User-Agent: Mozilla/5.0; no retry is ever performed. -/
theorem claim_C7_single_fixed_request (oracle : OutboundRequest → Upstream) :
    (proxyRun oracle).1 = [outboundRequest] ∧
    (proxyRun oracle).1.length = 1 ∧
    outboundRequest.method = "GET" ∧
    outboundRequest.url = "https://natesnewsletter.substack.com/feed" ∧
    outboundRequest.headers = [("User-Agent", "Mozilla/5.0")] :=
  ⟨rfl, rfl, rfl, rfl, rfl⟩

/-- Claim C8: the 500 response of the failure branch is built with no
explicit content type, so it carries the Flask default
`text/html; charset=utf-8`, which is neither the `application/xml` type of
the success branch nor a text/plain type. -/
theorem claim_C8_default_content_type (msg : String) :
    (proxy (Upstream.exn msg)).contentType = none ∧
    effectiveContentType (proxy (Upstream.exn msg)) = "text/html; charset=utf-8" ∧
    effectiveContentType (proxy (Upstream.exn msg)) ≠ "application/xml; charset=utf-8" ∧
    effectiveContentType (proxy (Upstream.exn msg)) ≠ "text/plain" ∧
    effectiveContentType (proxy (Upstream.exn msg)) ≠ "text/plain; charset=utf-8" := by
  have h : effectiveContentType (proxy (Upstream.exn msg)) =
      "text/html; charset=utf-8" := rfl
  refine ⟨rfl, rfl, ?_, ?_, ?_⟩ <;> rw [h] <;> decide

/-- Claim C9: every outbound request issued by the handler is configured
with no timeout, so nothing in the request bounds how long the handler
waits for the upstream. -/
theorem claim_C9_no_timeout (oracle : OutboundRequest → Upstream) :
    ((proxyRun oracle).1.map OutboundRequest.timeout) = [none] ∧
    outboundRequest.timeout = none := ⟨rfl, rfl⟩

/-- Claim C10: started as the main module, the server listens on host
0.0.0.0 and fixed port 8080, whatever the process environment holds: no
environment variable overrides either value. -/
theorem claim_C10_server_config (env : List (String × String)) :
    serverStart env = ⟨"0.0.0.0", 8080⟩ ∧
    (serverStart env).host = "0.0.0.0" ∧
    (serverStart env).port = 8080 := ⟨rfl, rfl, rfl⟩
